import Mathlib

/-!
Shallow embedding of `myskoda/models/info.py`: the capability registry, the
capability-collection decoder and the vehicle-info aggregate, together with
theorems checking the specification claims against them.

JSON values are modelled by `JValue` (numeric values as integers: no claim
depends on fractional values, and ISO dates are kept as their wire strings),
Python dict subscript failures and mashumaro decode failures by `DecodeError`,
and the single `_LOGGER.info` side effect by an explicit list of emitted
messages threaded through the decoders.
-/

namespace Myskoda

/-- A JSON-like value, as passed around by the mashumaro decoding layer. -/
inductive JValue where
  | jnull
  | jbool (b : Bool)
  | jint (n : Int)
  | jstr (s : String)
  | jlist (xs : List JValue)
  | jobj (fields : List (String × JValue))

/-- First-match association lookup, standing in for a Python dict subscript. -/
def lookupKey : List (String × JValue) → String → Option JValue
  | [], _ => none
  | (k, v) :: rest, key => if k = key then some v else lookupKey rest key

/-- A failure raised during decoding: a raw `dict` subscript failure
(`KeyError`), a missing required field (mashumaro `MissingField`) or an
invalid field value (mashumaro `InvalidFieldValue`); the specification
groups the latter two as `MalformedField`. -/
inductive DecodeError where
  | keyError (key : String)
  | missingField (name : String)
  | invalidField (name : String)
deriving DecidableEq, Repr

/-- Whether a decoding step succeeded. -/
def isOkE {α : Type} : Except DecodeError α → Bool
  | .ok _ => true
  | .error _ => false

/-- Map over a list in the `Except` monad, failing at the first failing
element (the order in which a Python list comprehension raises). -/
def mapME {α β : Type} (f : α → Except DecodeError β) : List α → Except DecodeError (List β)
  | [] => .ok []
  | x :: xs =>
    match f x with
    | .error e => .error e
    | .ok y =>
      match mapME f xs with
      | .error e => .error e
      | .ok ys => .ok (y :: ys)

/-- The `CapabilityId` string enumeration of the source, one constructor per member. -/
inductive CapabilityId where
  | ACCESS
  | AIR_CONDITIONING
  | AIR_CONDITIONING_HEATING_SOURCE_AUXILIARY
  | AIR_CONDITIONING_HEATING_SOURCE_ELECTRIC
  | AIR_CONDITIONING_SAVE_AND_ACTIVATE
  | AIR_CONDITIONING_SMART_SETTINGS
  | AIR_CONDITIONING_TIMERS
  | AUTOMATION
  | BATTERY_CHARGING_CARE
  | BATTERY_SUPPORT
  | CARE_AND_INSURANCE
  | CHARGE_MODE_SELECTION
  | CHARGING
  | CHARGING_MEB
  | CHARGING_MQB
  | CHARGING_PROFILES
  | CHARGING_STATIONS
  | CUBIC
  | DEALER_APPOINTMENT
  | DEPARTURE_TIMERS
  | DESTINATIONS
  | DESTINATION_IMPORT
  | DESTINATION_IMPORT_UPGRADABLE
  | DIGICERT
  | EMERGENCY_CALLING
  | EV_ROUTE_PLANNING
  | EXTENDED_CHARGING_SETTINGS
  | FUEL_STATUS
  | GEO_FENCE
  | GUEST_USER_MANAGEMENT
  | HONK_AND_FLASH
  | ICE_VEHICLE_RTS
  | LOYALTY_PROGRAM
  | MAP_UPDATE
  | MEASUREMENTS
  | MISUSE_PROTECTION
  | NEWS
  | ONLINE_SPEECH_GPS
  | PARKING_INFORMATION
  | PARKING_POSITION
  | PAY_TO_FUEL
  | PAY_TO_PARK
  | PLUG_AND_CHARGE
  | POI_SEARCH
  | POWERPASS_TARIFFS
  | ROADSIDE_ASSISTANT
  | ROUTE_IMPORT
  | ROUTE_PLANNING_5_CHARGERS
  | ROUTING
  | SERVICE_PARTNER
  | SPEED_ALERT
  | STATE
  | SUBSCRIPTIONS
  | TRAFFIC_INFORMATION
  | TRIP_STATISTICS
  | VEHICLE_HEALTH_INSPECTION
  | VEHICLE_HEALTH_WARNINGS
  | VEHICLE_HEALTH_WARNINGS_WITH_WAKE_UP
  | VEHICLE_SERVICES_BACKUPS
  | VEHICLE_WAKE_UP
  | VEHICLE_WAKE_UP_TRIGGER
  | WARNING_LIGHTS
  | WEB_RADIO
  | WINDOW_HEATING
deriving DecidableEq, Repr

/-- The string value of a `CapabilityId` member (`StrEnum` value). -/
def CapabilityId.toString : CapabilityId → String
  | ACCESS => "ACCESS"
  | AIR_CONDITIONING => "AIR_CONDITIONING"
  | AIR_CONDITIONING_HEATING_SOURCE_AUXILIARY => "AIR_CONDITIONING_HEATING_SOURCE_AUXILIARY"
  | AIR_CONDITIONING_HEATING_SOURCE_ELECTRIC => "AIR_CONDITIONING_HEATING_SOURCE_ELECTRIC"
  | AIR_CONDITIONING_SAVE_AND_ACTIVATE => "AIR_CONDITIONING_SAVE_AND_ACTIVATE"
  | AIR_CONDITIONING_SMART_SETTINGS => "AIR_CONDITIONING_SMART_SETTINGS"
  | AIR_CONDITIONING_TIMERS => "AIR_CONDITIONING_TIMERS"
  | AUTOMATION => "AUTOMATION"
  | BATTERY_CHARGING_CARE => "BATTERY_CHARGING_CARE"
  | BATTERY_SUPPORT => "BATTERY_SUPPORT"
  | CARE_AND_INSURANCE => "CARE_AND_INSURANCE"
  | CHARGE_MODE_SELECTION => "CHARGE_MODE_SELECTION"
  | CHARGING => "CHARGING"
  | CHARGING_MEB => "CHARGING_MEB"
  | CHARGING_MQB => "CHARGING_MQB"
  | CHARGING_PROFILES => "CHARGING_PROFILES"
  | CHARGING_STATIONS => "CHARGING_STATIONS"
  | CUBIC => "CUBIC"
  | DEALER_APPOINTMENT => "DEALER_APPOINTMENT"
  | DEPARTURE_TIMERS => "DEPARTURE_TIMERS"
  | DESTINATIONS => "DESTINATIONS"
  | DESTINATION_IMPORT => "DESTINATION_IMPORT"
  | DESTINATION_IMPORT_UPGRADABLE => "DESTINATION_IMPORT_UPGRADABLE"
  | DIGICERT => "DIGICERT"
  | EMERGENCY_CALLING => "EMERGENCY_CALLING"
  | EV_ROUTE_PLANNING => "EV_ROUTE_PLANNING"
  | EXTENDED_CHARGING_SETTINGS => "EXTENDED_CHARGING_SETTINGS"
  | FUEL_STATUS => "FUEL_STATUS"
  | GEO_FENCE => "GEO_FENCE"
  | GUEST_USER_MANAGEMENT => "GUEST_USER_MANAGEMENT"
  | HONK_AND_FLASH => "HONK_AND_FLASH"
  | ICE_VEHICLE_RTS => "ICE_VEHICLE_RTS"
  | LOYALTY_PROGRAM => "LOYALTY_PROGRAM"
  | MAP_UPDATE => "MAP_UPDATE"
  | MEASUREMENTS => "MEASUREMENTS"
  | MISUSE_PROTECTION => "MISUSE_PROTECTION"
  | NEWS => "NEWS"
  | ONLINE_SPEECH_GPS => "ONLINE_SPEECH_GPS"
  | PARKING_INFORMATION => "PARKING_INFORMATION"
  | PARKING_POSITION => "PARKING_POSITION"
  | PAY_TO_FUEL => "PAY_TO_FUEL"
  | PAY_TO_PARK => "PAY_TO_PARK"
  | PLUG_AND_CHARGE => "PLUG_AND_CHARGE"
  | POI_SEARCH => "POI_SEARCH"
  | POWERPASS_TARIFFS => "POWERPASS_TARIFFS"
  | ROADSIDE_ASSISTANT => "ROADSIDE_ASSISTANT"
  | ROUTE_IMPORT => "ROUTE_IMPORT"
  | ROUTE_PLANNING_5_CHARGERS => "ROUTE_PLANNING_5_CHARGERS"
  | ROUTING => "ROUTING"
  | SERVICE_PARTNER => "SERVICE_PARTNER"
  | SPEED_ALERT => "SPEED_ALERT"
  | STATE => "STATE"
  | SUBSCRIPTIONS => "SUBSCRIPTIONS"
  | TRAFFIC_INFORMATION => "TRAFFIC_INFORMATION"
  | TRIP_STATISTICS => "TRIP_STATISTICS"
  | VEHICLE_HEALTH_INSPECTION => "VEHICLE_HEALTH_INSPECTION"
  | VEHICLE_HEALTH_WARNINGS => "VEHICLE_HEALTH_WARNINGS"
  | VEHICLE_HEALTH_WARNINGS_WITH_WAKE_UP => "VEHICLE_HEALTH_WARNINGS_WITH_WAKE_UP"
  | VEHICLE_SERVICES_BACKUPS => "VEHICLE_SERVICES_BACKUPS"
  | VEHICLE_WAKE_UP => "VEHICLE_WAKE_UP"
  | VEHICLE_WAKE_UP_TRIGGER => "VEHICLE_WAKE_UP_TRIGGER"
  | WARNING_LIGHTS => "WARNING_LIGHTS"
  | WEB_RADIO => "WEB_RADIO"
  | WINDOW_HEATING => "WINDOW_HEATING"

/-- Membership lookup into `CapabilityId`: the value for a known member string, else `none`. -/
def CapabilityId.fromString? : String → Option CapabilityId
  | "ACCESS" => some ACCESS
  | "AIR_CONDITIONING" => some AIR_CONDITIONING
  | "AIR_CONDITIONING_HEATING_SOURCE_AUXILIARY" => some AIR_CONDITIONING_HEATING_SOURCE_AUXILIARY
  | "AIR_CONDITIONING_HEATING_SOURCE_ELECTRIC" => some AIR_CONDITIONING_HEATING_SOURCE_ELECTRIC
  | "AIR_CONDITIONING_SAVE_AND_ACTIVATE" => some AIR_CONDITIONING_SAVE_AND_ACTIVATE
  | "AIR_CONDITIONING_SMART_SETTINGS" => some AIR_CONDITIONING_SMART_SETTINGS
  | "AIR_CONDITIONING_TIMERS" => some AIR_CONDITIONING_TIMERS
  | "AUTOMATION" => some AUTOMATION
  | "BATTERY_CHARGING_CARE" => some BATTERY_CHARGING_CARE
  | "BATTERY_SUPPORT" => some BATTERY_SUPPORT
  | "CARE_AND_INSURANCE" => some CARE_AND_INSURANCE
  | "CHARGE_MODE_SELECTION" => some CHARGE_MODE_SELECTION
  | "CHARGING" => some CHARGING
  | "CHARGING_MEB" => some CHARGING_MEB
  | "CHARGING_MQB" => some CHARGING_MQB
  | "CHARGING_PROFILES" => some CHARGING_PROFILES
  | "CHARGING_STATIONS" => some CHARGING_STATIONS
  | "CUBIC" => some CUBIC
  | "DEALER_APPOINTMENT" => some DEALER_APPOINTMENT
  | "DEPARTURE_TIMERS" => some DEPARTURE_TIMERS
  | "DESTINATIONS" => some DESTINATIONS
  | "DESTINATION_IMPORT" => some DESTINATION_IMPORT
  | "DESTINATION_IMPORT_UPGRADABLE" => some DESTINATION_IMPORT_UPGRADABLE
  | "DIGICERT" => some DIGICERT
  | "EMERGENCY_CALLING" => some EMERGENCY_CALLING
  | "EV_ROUTE_PLANNING" => some EV_ROUTE_PLANNING
  | "EXTENDED_CHARGING_SETTINGS" => some EXTENDED_CHARGING_SETTINGS
  | "FUEL_STATUS" => some FUEL_STATUS
  | "GEO_FENCE" => some GEO_FENCE
  | "GUEST_USER_MANAGEMENT" => some GUEST_USER_MANAGEMENT
  | "HONK_AND_FLASH" => some HONK_AND_FLASH
  | "ICE_VEHICLE_RTS" => some ICE_VEHICLE_RTS
  | "LOYALTY_PROGRAM" => some LOYALTY_PROGRAM
  | "MAP_UPDATE" => some MAP_UPDATE
  | "MEASUREMENTS" => some MEASUREMENTS
  | "MISUSE_PROTECTION" => some MISUSE_PROTECTION
  | "NEWS" => some NEWS
  | "ONLINE_SPEECH_GPS" => some ONLINE_SPEECH_GPS
  | "PARKING_INFORMATION" => some PARKING_INFORMATION
  | "PARKING_POSITION" => some PARKING_POSITION
  | "PAY_TO_FUEL" => some PAY_TO_FUEL
  | "PAY_TO_PARK" => some PAY_TO_PARK
  | "PLUG_AND_CHARGE" => some PLUG_AND_CHARGE
  | "POI_SEARCH" => some POI_SEARCH
  | "POWERPASS_TARIFFS" => some POWERPASS_TARIFFS
  | "ROADSIDE_ASSISTANT" => some ROADSIDE_ASSISTANT
  | "ROUTE_IMPORT" => some ROUTE_IMPORT
  | "ROUTE_PLANNING_5_CHARGERS" => some ROUTE_PLANNING_5_CHARGERS
  | "ROUTING" => some ROUTING
  | "SERVICE_PARTNER" => some SERVICE_PARTNER
  | "SPEED_ALERT" => some SPEED_ALERT
  | "STATE" => some STATE
  | "SUBSCRIPTIONS" => some SUBSCRIPTIONS
  | "TRAFFIC_INFORMATION" => some TRAFFIC_INFORMATION
  | "TRIP_STATISTICS" => some TRIP_STATISTICS
  | "VEHICLE_HEALTH_INSPECTION" => some VEHICLE_HEALTH_INSPECTION
  | "VEHICLE_HEALTH_WARNINGS" => some VEHICLE_HEALTH_WARNINGS
  | "VEHICLE_HEALTH_WARNINGS_WITH_WAKE_UP" => some VEHICLE_HEALTH_WARNINGS_WITH_WAKE_UP
  | "VEHICLE_SERVICES_BACKUPS" => some VEHICLE_SERVICES_BACKUPS
  | "VEHICLE_WAKE_UP" => some VEHICLE_WAKE_UP
  | "VEHICLE_WAKE_UP_TRIGGER" => some VEHICLE_WAKE_UP_TRIGGER
  | "WARNING_LIGHTS" => some WARNING_LIGHTS
  | "WEB_RADIO" => some WEB_RADIO
  | "WINDOW_HEATING" => some WINDOW_HEATING
  | _ => none

/-- The `CapabilityStatus` string enumeration of the source, one constructor per member. -/
inductive CapabilityStatus where
  | DEACTIVATED_BY_ACTIVE_VEHICLE_USER
  | DISABLED_BY_USER
  | FRONTEND_SWITCHED_OFF
  | INITIALLY_DISABLED
  | INSUFFICIENT_BATTERY_LEVEL
  | LICENSE_EXPIRED
  | LICENSE_MISSING
  | LOCATION_DATA_DISABLED
deriving DecidableEq, Repr

/-- The string value of a `CapabilityStatus` member (`StrEnum` value). -/
def CapabilityStatus.toString : CapabilityStatus → String
  | DEACTIVATED_BY_ACTIVE_VEHICLE_USER => "DEACTIVATED_BY_ACTIVE_VEHICLE_USER"
  | DISABLED_BY_USER => "DISABLED_BY_USER"
  | FRONTEND_SWITCHED_OFF => "FRONTEND_SWITCHED_OFF"
  | INITIALLY_DISABLED => "INITIALLY_DISABLED"
  | INSUFFICIENT_BATTERY_LEVEL => "INSUFFICIENT_BATTERY_LEVEL"
  | LICENSE_EXPIRED => "LICENSE_EXPIRED"
  | LICENSE_MISSING => "LICENSE_MISSING"
  | LOCATION_DATA_DISABLED => "LOCATION_DATA_DISABLED"

/-- Membership lookup into `CapabilityStatus`: the value for a known member string, else `none`. -/
def CapabilityStatus.fromString? : String → Option CapabilityStatus
  | "DEACTIVATED_BY_ACTIVE_VEHICLE_USER" => some DEACTIVATED_BY_ACTIVE_VEHICLE_USER
  | "DISABLED_BY_USER" => some DISABLED_BY_USER
  | "FRONTEND_SWITCHED_OFF" => some FRONTEND_SWITCHED_OFF
  | "INITIALLY_DISABLED" => some INITIALLY_DISABLED
  | "INSUFFICIENT_BATTERY_LEVEL" => some INSUFFICIENT_BATTERY_LEVEL
  | "LICENSE_EXPIRED" => some LICENSE_EXPIRED
  | "LICENSE_MISSING" => some LICENSE_MISSING
  | "LOCATION_DATA_DISABLED" => some LOCATION_DATA_DISABLED
  | _ => none

/-- The `BodyType` string enumeration of the source, one constructor per member. -/
inductive BodyType where
  | SUV
  | SUV_COUPE
  | COMBI
  | LIFTBACK
deriving DecidableEq, Repr

/-- The string value of a `BodyType` member (`StrEnum` value). -/
def BodyType.toString : BodyType → String
  | SUV => "SUV"
  | SUV_COUPE => "SUV Coupe"
  | COMBI => "Combi"
  | LIFTBACK => "Liftback"

/-- Membership lookup into `BodyType`: the value for a known member string, else `none`. -/
def BodyType.fromString? : String → Option BodyType
  | "SUV" => some SUV
  | "SUV Coupe" => some SUV_COUPE
  | "Combi" => some COMBI
  | "Liftback" => some LIFTBACK
  | _ => none

/-- The `VehicleState` string enumeration of the source, one constructor per member. -/
inductive VehicleState where
  | ACTIVATED
deriving DecidableEq, Repr

/-- The string value of a `VehicleState` member (`StrEnum` value). -/
def VehicleState.toString : VehicleState → String
  | ACTIVATED => "ACTIVATED"

/-- Membership lookup into `VehicleState`: the value for a known member string, else `none`. -/
def VehicleState.fromString? : String → Option VehicleState
  | "ACTIVATED" => some ACTIVATED
  | _ => none

/-- The `ErrorType` string enumeration of the source, one constructor per member. -/
inductive ErrorType where
  | MISSING_RENDER
deriving DecidableEq, Repr

/-- The string value of a `ErrorType` member (`StrEnum` value). -/
def ErrorType.toString : ErrorType → String
  | MISSING_RENDER => "MISSING_RENDER"

/-- Membership lookup into `ErrorType`: the value for a known member string, else `none`. -/
def ErrorType.fromString? : String → Option ErrorType
  | "MISSING_RENDER" => some MISSING_RENDER
  | _ => none

/-- One capability entry (the `Capability` dataclass). -/
structure Capability where
  id : CapabilityId
  statuses : List CapabilityStatus
deriving DecidableEq, Repr

/-- `Capability.is_available`: the capability can currently be used iff no
status is present (`not self.statuses`). -/
def Capability.is_available (c : Capability) : Bool :=
  c.statuses.isEmpty

/-- Decode one entry of a raw `statuses` list into a `CapabilityStatus`. -/
def decodeStatus (v : JValue) : Except DecodeError CapabilityStatus :=
  match v with
  | .jstr s =>
    match CapabilityStatus.fromString? s with
    | some st => .ok st
    | none => .error (.invalidField "statuses")
  | _ => .error (.invalidField "statuses")

/-- mashumaro-generated `Capability.from_dict`: requires an `id` that is a
known `CapabilityId` string and a `statuses` list of known
`CapabilityStatus` strings; anything else is a decode failure. -/
def Capability.from_dict (v : JValue) : Except DecodeError Capability :=
  match v with
  | .jobj f =>
    match lookupKey f "id" with
    | none => .error (.missingField "id")
    | some (.jstr s) =>
      match CapabilityId.fromString? s with
      | none => .error (.invalidField "id")
      | some cid =>
        match lookupKey f "statuses" with
        | none => .error (.missingField "statuses")
        | some (.jlist sts) =>
          match mapME decodeStatus sts with
          | .error e => .error e
          | .ok statuses => .ok ⟨cid, statuses⟩
        | some _ => .error (.invalidField "statuses")
    | some _ => .error (.invalidField "id")
  | _ => .error (.invalidField "capability")

/-- The Python subscript `c["id"]`: the raw id value, or a lookup error when
the record has no `id` key (or is not a dict at all). -/
def rawId (c : JValue) : Except DecodeError JValue :=
  match c with
  | .jobj f =>
    match lookupKey f "id" with
    | some v => .ok v
    | none => .error (.keyError "id")
  | _ => .error (.keyError "id")

/-- The membership test `c["id"] in CapabilityId`: true iff the raw id is a
string belonging to the enumeration (a non-string value is not a member). -/
def idKnown (v : JValue) : Bool :=
  match v with
  | .jstr s => (CapabilityId.fromString? s).isSome
  | _ => false

/-- The subscript pass of the partition comprehension of
`drop_unknown_capabilities`: pair every record with its raw id, raising at
the first record without one. -/
def subscriptIds : List JValue → Except DecodeError (List (JValue × JValue))
  | [] => .ok []
  | c :: rest =>
    match rawId c with
    | .error e => .error e
    | .ok v =>
      match subscriptIds rest with
      | .error e => .error e
      | .ok tail => .ok ((c, v) :: tail)

/-- `drop_unknown_capabilities`: partition the raw records on id membership,
log the dropped raw records once when any exist, then decode the retained
records in their original order. The `_LOGGER.info` call is modelled as the
first component: the list of messages emitted, each carrying the exact raw
records it reports. A message stays emitted even when a later per-record
decode fails, and nothing is emitted when the subscript pass itself raises
first (the partition comprehension runs before the log statement). -/
def drop_unknown_capabilities (value : List JValue) :
    List (List JValue) × Except DecodeError (List Capability) :=
  match subscriptIds value with
  | .error e => ([], .error e)
  | .ok tagged =>
    let unknown_capabilities := (tagged.filter (fun p => !idKnown p.2)).map Prod.fst
    let logs := if unknown_capabilities.isEmpty then [] else [unknown_capabilities]
    let known := (tagged.filter (fun p => idKnown p.2)).map Prod.fst
    (logs, mapME Capability.from_dict known)

/-- The `Capabilities` dataclass: a wrapper around the decoded collection. -/
structure Capabilities where
  capabilities : List Capability
deriving DecidableEq, Repr

/-- mashumaro `Capabilities.from_dict`: the `capabilities` field is decoded
through the `drop_unknown_capabilities` hook; its emitted log messages are
the first component. -/
def Capabilities.from_dict (v : JValue) : List (List JValue) × Except DecodeError Capabilities :=
  match v with
  | .jobj f =>
    match lookupKey f "capabilities" with
    | some (.jlist raws) =>
      let p := drop_unknown_capabilities raws
      (p.1, p.2.map Capabilities.mk)
    | some _ => ([], .error (.invalidField "capabilities"))
    | none => ([], .error (.missingField "capabilities"))
  | _ => ([], .error (.invalidField "capabilities"))

/-- The `Battery` dataclass (wire alias `capacityInKWh`). -/
structure Battery where
  capacity : Int
deriving DecidableEq, Repr

/-- The `Engine` dataclass (wire aliases `powerInKW`, `capacityInLiters`). -/
structure Engine where
  type : String
  power : Int
  capacity_in_liters : Option Int
deriving DecidableEq, Repr

/-- The `Specification` dataclass, fields in source declaration order. -/
structure Specification where
  body : BodyType
  engine : Engine
  model : String
  title : String
  manufacturing_date : String
  model_year : String
  system_code : String
  system_model_id : String
  battery : Option Battery
  max_charging_power : Option Int
  trim_level : Option String
deriving DecidableEq, Repr

/-- The `ServicePartner` dataclass (wire alias `servicePartnerId`). -/
structure ServicePartner where
  id : String
deriving DecidableEq, Repr

/-- The `Error` dataclass. -/
structure Error where
  description : String
  type : ErrorType
deriving DecidableEq, Repr

/-- The `Info` dataclass (aggregate root), fields in source declaration order. -/
structure Info where
  state : VehicleState
  specification : Specification
  vin : String
  name : String
  capabilities : Capabilities
  device_platform : String
  service_partner : ServicePartner
  workshop_mode_enabled : Bool
  software_version : Option String
  license_plate : Option String
  errors : Option (List Error)
deriving DecidableEq, Repr

/-- Decode a required string field looked up under its wire key. -/
def reqStr (f : List (String × JValue)) (key : String) : Except DecodeError String :=
  match lookupKey f key with
  | some (.jstr s) => .ok s
  | some _ => .error (.invalidField key)
  | none => .error (.missingField key)

/-- Decode a required integer field looked up under its wire key. -/
def reqInt (f : List (String × JValue)) (key : String) : Except DecodeError Int :=
  match lookupKey f key with
  | some (.jint n) => .ok n
  | some _ => .error (.invalidField key)
  | none => .error (.missingField key)

/-- Decode a required boolean field looked up under its wire key. -/
def reqBool (f : List (String × JValue)) (key : String) : Except DecodeError Bool :=
  match lookupKey f key with
  | some (.jbool b) => .ok b
  | some _ => .error (.invalidField key)
  | none => .error (.missingField key)

/-- Decode an optional (`str | None`, default `None`) string field. -/
def optStr (f : List (String × JValue)) (key : String) : Except DecodeError (Option String) :=
  match lookupKey f key with
  | none => .ok none
  | some .jnull => .ok none
  | some (.jstr s) => .ok (some s)
  | some _ => .error (.invalidField key)

/-- Decode an optional (`int | None`, default `None`) integer field. -/
def optInt (f : List (String × JValue)) (key : String) : Except DecodeError (Option Int) :=
  match lookupKey f key with
  | none => .ok none
  | some .jnull => .ok none
  | some (.jint n) => .ok (some n)
  | some _ => .error (.invalidField key)

/-- Decode a required enumerated field through a membership lookup. -/
def reqEnum {α : Type} (fromStr : String → Option α) (f : List (String × JValue))
    (key : String) : Except DecodeError α :=
  match lookupKey f key with
  | some (.jstr s) =>
    match fromStr s with
    | some v => .ok v
    | none => .error (.invalidField key)
  | some _ => .error (.invalidField key)
  | none => .error (.missingField key)

/-- Decode a required nested dataclass field through its own decoder. -/
def reqWith {α : Type} (dec : JValue → Except DecodeError α) (f : List (String × JValue))
    (key : String) : Except DecodeError α :=
  match lookupKey f key with
  | some v => dec v
  | none => .error (.missingField key)

/-- Decode an optional (`T | None`, default `None`) nested dataclass field. -/
def optWith {α : Type} (dec : JValue → Except DecodeError α) (f : List (String × JValue))
    (key : String) : Except DecodeError (Option α) :=
  match lookupKey f key with
  | none => .ok none
  | some .jnull => .ok none
  | some v => (dec v).map some

/-- mashumaro `Battery.from_dict`. -/
def Battery.from_dict (v : JValue) : Except DecodeError Battery :=
  match v with
  | .jobj f => do
    let capacity ← reqInt f "capacityInKWh"
    return ⟨capacity⟩
  | _ => .error (.invalidField "battery")

/-- mashumaro `Engine.from_dict`. -/
def Engine.from_dict (v : JValue) : Except DecodeError Engine :=
  match v with
  | .jobj f => do
    let t ← reqStr f "type"
    let power ← reqInt f "powerInKW"
    let cap ← optInt f "capacityInLiters"
    return ⟨t, power, cap⟩
  | _ => .error (.invalidField "engine")

/-- mashumaro `Specification.from_dict`, fields in declaration order. -/
def Specification.from_dict (v : JValue) : Except DecodeError Specification :=
  match v with
  | .jobj f => do
    let body ← reqEnum BodyType.fromString? f "body"
    let engine ← reqWith Engine.from_dict f "engine"
    let model ← reqStr f "model"
    let title ← reqStr f "title"
    let manufacturing_date ← reqStr f "manufacturingDate"
    let model_year ← reqStr f "modelYear"
    let system_code ← reqStr f "systemCode"
    let system_model_id ← reqStr f "systemModelId"
    let battery ← optWith Battery.from_dict f "battery"
    let max_charging_power ← optInt f "maxChargingPowerInKW"
    let trim_level ← optStr f "trimLevel"
    return ⟨body, engine, model, title, manufacturing_date, model_year, system_code,
      system_model_id, battery, max_charging_power, trim_level⟩
  | _ => .error (.invalidField "specification")

/-- mashumaro `ServicePartner.from_dict`. -/
def ServicePartner.from_dict (v : JValue) : Except DecodeError ServicePartner :=
  match v with
  | .jobj f => do
    let id ← reqStr f "servicePartnerId"
    return ⟨id⟩
  | _ => .error (.invalidField "servicePartner")

/-- mashumaro `Error.from_dict`. -/
def Error.from_dict (v : JValue) : Except DecodeError Error :=
  match v with
  | .jobj f => do
    let description ← reqStr f "description"
    let t ← reqEnum ErrorType.fromString? f "type"
    return ⟨description, t⟩
  | _ => .error (.invalidField "error")

/-- Decode the optional `errors: list[Error] | None` field. -/
def decodeErrors (f : List (String × JValue)) : Except DecodeError (Option (List Error)) :=
  match lookupKey f "errors" with
  | none => .ok none
  | some .jnull => .ok none
  | some (.jlist xs) => (mapME Error.from_dict xs).map some
  | some _ => .error (.invalidField "errors")

/-- The fields of `Info` decoded before `capabilities`, in declaration order. -/
def decodeInfoPre (f : List (String × JValue)) :
    Except DecodeError (VehicleState × Specification × String × String) := do
  let st ← reqEnum VehicleState.fromString? f "state"
  let spec ← reqWith Specification.from_dict f "specification"
  let vin ← reqStr f "vin"
  let name ← reqStr f "name"
  return (st, spec, vin, name)

/-- The fields of `Info` decoded after `capabilities`, in declaration order. -/
def decodeInfoPost (f : List (String × JValue)) :
    Except DecodeError
      (String × ServicePartner × Bool × Option String × Option String × Option (List Error)) := do
  let dp ← reqStr f "devicePlatform"
  let sp ← reqWith ServicePartner.from_dict f "servicePartner"
  let wm ← reqBool f "workshopModeEnabled"
  let sv ← optStr f "softwareVersion"
  let lp ← optStr f "licensePlate"
  let errs ← decodeErrors f
  return (dp, sp, wm, sv, lp, errs)

/-- mashumaro `Info.from_dict`, threading the emitted log messages: fields
decode in declaration order, and messages already emitted by the
capabilities hook survive a later failure. -/
def Info.from_dict (doc : JValue) : List (List JValue) × Except DecodeError Info :=
  match doc with
  | .jobj f =>
    match decodeInfoPre f with
    | .error e => ([], .error e)
    | .ok (st, spec, vin, name) =>
      match lookupKey f "capabilities" with
      | none => ([], .error (.missingField "capabilities"))
      | some cv =>
        match Capabilities.from_dict cv with
        | (logs, .error e) => (logs, .error e)
        | (logs, .ok caps) =>
          match decodeInfoPost f with
          | .error e => (logs, .error e)
          | .ok (dp, sp, wm, sv, lp, errs) =>
            (logs, .ok ⟨st, spec, vin, name, caps, dp, sp, wm, sv, lp, errs⟩)
  | _ => ([], .error (.invalidField "info"))

/-- Encode an optional value, `None` becoming JSON `null`. -/
def optJ {α : Type} (enc : α → JValue) : Option α → JValue
  | none => .jnull
  | some x => enc x

/-- mashumaro `to_dict` for `Capability`: enum members serialize by value;
keys are the dataclass field names. -/
def Capability.to_dict (c : Capability) : JValue :=
  .jobj [("id", .jstr c.id.toString),
    ("statuses", .jlist (c.statuses.map (fun s => .jstr s.toString)))]

/-- mashumaro `to_dict` for `Capabilities` (no serialization hook is
configured, so the entries serialize plainly). -/
def Capabilities.to_dict (c : Capabilities) : JValue :=
  .jobj [("capabilities", .jlist (c.capabilities.map Capability.to_dict))]

/-- mashumaro `to_dict` for `Battery`: without `serialize_by_alias`, the key
is the field name `capacity`, not the wire alias. -/
def Battery.to_dict (b : Battery) : JValue :=
  .jobj [("capacity", .jint b.capacity)]

/-- mashumaro `to_dict` for `Engine` (field names, not wire aliases). -/
def Engine.to_dict (e : Engine) : JValue :=
  .jobj [("type", .jstr e.type), ("power", .jint e.power),
    ("capacity_in_liters", optJ JValue.jint e.capacity_in_liters)]

/-- mashumaro `to_dict` for `Specification` (field names, not wire aliases). -/
def Specification.to_dict (s : Specification) : JValue :=
  .jobj [("body", .jstr s.body.toString), ("engine", s.engine.to_dict),
    ("model", .jstr s.model), ("title", .jstr s.title),
    ("manufacturing_date", .jstr s.manufacturing_date),
    ("model_year", .jstr s.model_year), ("system_code", .jstr s.system_code),
    ("system_model_id", .jstr s.system_model_id),
    ("battery", optJ Battery.to_dict s.battery),
    ("max_charging_power", optJ JValue.jint s.max_charging_power),
    ("trim_level", optJ JValue.jstr s.trim_level)]

/-- mashumaro `to_dict` for `ServicePartner` (field name `id`). -/
def ServicePartner.to_dict (p : ServicePartner) : JValue :=
  .jobj [("id", .jstr p.id)]

/-- mashumaro `to_dict` for `Error`. -/
def Error.to_dict (e : Error) : JValue :=
  .jobj [("description", .jstr e.description), ("type", .jstr e.type.toString)]

/-- mashumaro `to_dict` for `Info`: without `serialize_by_alias`, keys are
the dataclass field names, not the wire aliases. -/
def Info.to_dict (i : Info) : JValue :=
  .jobj [("state", .jstr i.state.toString),
    ("specification", i.specification.to_dict),
    ("vin", .jstr i.vin), ("name", .jstr i.name),
    ("capabilities", i.capabilities.to_dict),
    ("device_platform", .jstr i.device_platform),
    ("service_partner", i.service_partner.to_dict),
    ("workshop_mode_enabled", .jbool i.workshop_mode_enabled),
    ("software_version", optJ JValue.jstr i.software_version),
    ("license_plate", optJ JValue.jstr i.license_plate),
    ("errors", optJ (fun es => JValue.jlist (es.map Error.to_dict)) i.errors)]

/-- `Info.has_capability`: some collection entry carries the id. -/
def Info.has_capability (i : Info) (cap : CapabilityId) : Bool :=
  i.capabilities.capabilities.any (fun c => c.id == cap)

/-- `Info.is_capability_available`: some collection entry carries the id and
is currently available. -/
def Info.is_capability_available (i : Info) (cap : CapabilityId) : Bool :=
  i.capabilities.capabilities.any (fun c => c.id == cap && c.is_available)

/-- The single-quote character of a Python string `repr`. -/
def sq : String := (Char.ofNat 39).toString

/-- Python rendering of the optional capacity in a dataclass `repr` (`None`
or the number; the fractional part of a float is elided, see module header). -/
def pyOptInt : Option Int → String
  | none => "None"
  | some n => toString n

/-- The Python dataclass `repr` of `Engine`, which is what an f-string
interpolation of an engine produces (string escaping is elided; no claim
exercises it). -/
def Engine.pyRepr (e : Engine) : String :=
  "Engine(type=" ++ sq ++ e.type ++ sq ++ ", power=" ++ toString e.power ++
    ", capacity_in_liters=" ++ pyOptInt e.capacity_in_liters ++ ")"

/-- `Info.get_model_name`: the f-string composition of model, engine
rendering, model year and system model id. -/
def Info.get_model_name (i : Info) : String :=
  i.specification.model ++ " " ++ i.specification.engine.pyRepr ++ " " ++
    i.specification.model_year ++ " (" ++ i.specification.system_model_id ++ ")"

/-- The remainder of a character list after the first occurrence of `pat`,
if `pat` occurs at all. -/
def dropThrough (pat : List Char) : List Char → Option (List Char)
  | [] => if pat.isEmpty then some [] else none
  | c :: rest =>
    if pat.isPrefixOf (c :: rest) then some ((c :: rest).drop pat.length)
    else dropThrough pat rest

/-- Whether every element of `pats` occurs in `cs` as a contiguous run, in
the given relative order. -/
def containsFrom : List Char → List String → Bool
  | _, [] => true
  | cs, p :: ps =>
    match dropThrough p.data cs with
    | none => false
    | some rest => containsFrom rest ps

/-- Whether all of `pats` occur in `s` as substrings, in the given relative
order. -/
def containsInOrder (s : String) (pats : List String) : Bool :=
  containsFrom s.data pats

/-- Whether a raw record carries an id that is a known `CapabilityId`. -/
def recordKnown (c : JValue) : Bool :=
  match rawId c with
  | .ok v => idKnown v
  | .error _ => false

/-- Whether a raw record carries an id that is present but not a known
`CapabilityId`. -/
def recordUnknown (c : JValue) : Bool :=
  match rawId c with
  | .ok v => !idKnown v
  | .error _ => false

/-- Whether a raw statuses entry is a known `CapabilityStatus` string. -/
def statusOk (v : JValue) : Bool :=
  match v with
  | .jstr s => (CapabilityStatus.fromString? s).isSome
  | _ => false

/-- Whether a raw record carries a `statuses` list containing an entry that
is not a known `CapabilityStatus`. -/
def hasBadStatusEntry (c : JValue) : Bool :=
  match c with
  | .jobj f =>
    match lookupKey f "statuses" with
    | some (.jlist sts) => sts.any (fun v => !statusOk v)
    | _ => false
  | _ => false

lemma isOkE_false_iff {α : Type} {r : Except DecodeError α} :
    isOkE r = false ↔ ∃ e, r = .error e := by
  cases r <;> simp [isOkE]

lemma bindE_err {α β : Type} (e : DecodeError) (g : α → Except DecodeError β) :
    (Except.error e >>= g) = .error e := rfl

lemma bindE_ok {α β : Type} (a : α) (g : α → Except DecodeError β) :
    (Except.ok a >>= g) = g a := rfl

lemma mapME_ok_of_forall {α β : Type} {f : α → Except DecodeError β} {l : List α}
    (h : ∀ x ∈ l, isOkE (f x) = true) : ∃ ys, mapME f l = .ok ys := by
  induction l with
  | nil => exact ⟨[], rfl⟩
  | cons x xs ih =>
    have hx := h x (by simp)
    cases hfx : f x with
    | error e => rw [hfx] at hx; simp [isOkE] at hx
    | ok y =>
      obtain ⟨ys, hys⟩ := ih (fun z hz => h z (by simp [hz]))
      exact ⟨y :: ys, by simp [mapME, hfx, hys]⟩

lemma mapME_not_ok {α β : Type} {f : α → Except DecodeError β} {l : List α} {x : α}
    (hx : x ∈ l) (hfx : isOkE (f x) = false) : isOkE (mapME f l) = false := by
  induction l with
  | nil => cases hx
  | cons y ys ih =>
    rcases List.mem_cons.mp hx with rfl | hmem
    · cases hfy : f x with
      | error e => simp [mapME, hfy, isOkE]
      | ok b => rw [hfy] at hfx; simp [isOkE] at hfx
    · cases hfy : f y with
      | error e => simp [mapME, hfy, isOkE]
      | ok b =>
        have := ih hmem
        cases hm : mapME f ys with
        | error e => simp [mapME, hfy, hm, isOkE]
        | ok bs => rw [hm] at this; simp [isOkE] at this

lemma rawId_not_ok {c : JValue} (h : isOkE (rawId c) = false) :
    rawId c = .error (.keyError "id") := by
  cases c with
  | jobj f =>
    cases hl : lookupKey f "id" with
    | none => simp [rawId, hl]
    | some v => simp [rawId, hl, isOkE] at h
  | jnull => rfl
  | jbool b => rfl
  | jint n => rfl
  | jstr s => rfl
  | jlist xs => rfl

lemma subscriptIds_all_ok {value : List JValue}
    (h : ∀ c ∈ value, isOkE (rawId c) = true) :
    ∃ tagged, subscriptIds value = .ok tagged := by
  induction value with
  | nil => exact ⟨[], rfl⟩
  | cons c rest ih =>
    have hc := h c (by simp)
    cases hr : rawId c with
    | error e => rw [hr] at hc; simp [isOkE] at hc
    | ok v =>
      obtain ⟨tail, htail⟩ := ih (fun z hz => h z (by simp [hz]))
      exact ⟨(c, v) :: tail, by simp [subscriptIds, hr, htail]⟩

lemma subscriptIds_err {value : List JValue} {c : JValue}
    (hc : c ∈ value) (h : isOkE (rawId c) = false) :
    subscriptIds value = .error (.keyError "id") := by
  induction value with
  | nil => cases hc
  | cons y ys ih =>
    rcases List.mem_cons.mp hc with rfl | hmem
    · rw [subscriptIds, rawId_not_ok h]
    · cases hy : rawId y with
      | error e =>
        have := rawId_not_ok (by rw [hy]; rfl)
        rw [hy] at this
        rw [subscriptIds, hy]
        injection this with h1
        rw [h1]
      | ok v => rw [subscriptIds, hy, ih hmem]

lemma subscriptIds_filter_known {value : List JValue} {tagged : List (JValue × JValue)}
    (h : subscriptIds value = .ok tagged) :
    (tagged.filter (fun p => idKnown p.2)).map Prod.fst = value.filter recordKnown := by
  induction value generalizing tagged with
  | nil =>
    rw [subscriptIds] at h
    injection h with h1
    rw [← h1]
    rfl
  | cons c rest ih =>
    rw [subscriptIds] at h
    cases hr : rawId c with
    | error e => rw [hr] at h; cases h
    | ok v =>
      rw [hr] at h
      cases hs : subscriptIds rest with
      | error e => rw [hs] at h; cases h
      | ok tail =>
        rw [hs] at h
        injection h with h1
        rw [← h1]
        have hrec : recordKnown c = idKnown v := by rw [recordKnown, hr]
        cases hk : idKnown v with
        | true => simp [List.filter_cons, hrec, hk, ih hs]
        | false => simp [List.filter_cons, hrec, hk, ih hs]

lemma subscriptIds_filter_unknown {value : List JValue} {tagged : List (JValue × JValue)}
    (h : subscriptIds value = .ok tagged) :
    (tagged.filter (fun p => !idKnown p.2)).map Prod.fst = value.filter recordUnknown := by
  induction value generalizing tagged with
  | nil =>
    rw [subscriptIds] at h
    injection h with h1
    rw [← h1]
    rfl
  | cons c rest ih =>
    rw [subscriptIds] at h
    cases hr : rawId c with
    | error e => rw [hr] at h; cases h
    | ok v =>
      rw [hr] at h
      cases hs : subscriptIds rest with
      | error e => rw [hs] at h; cases h
      | ok tail =>
        rw [hs] at h
        injection h with h1
        rw [← h1]
        have hrec : recordUnknown c = !idKnown v := by rw [recordUnknown, hr]
        cases hk : idKnown v with
        | true => simp [List.filter_cons, hrec, hk, ih hs]
        | false => simp [List.filter_cons, hrec, hk, ih hs]

lemma decodeStatus_not_ok {v : JValue} (h : statusOk v = false) :
    isOkE (decodeStatus v) = false := by
  cases v with
  | jstr s =>
    rw [statusOk] at h
    cases hs : CapabilityStatus.fromString? s with
    | none => simp [decodeStatus, hs, isOkE]
    | some st => rw [hs] at h; simp at h
  | jnull => rfl
  | jbool b => rfl
  | jint n => rfl
  | jlist xs => rfl
  | jobj f => rfl

lemma from_dict_bad_status {c : JValue} (hk : recordKnown c = true)
    (hb : hasBadStatusEntry c = true) : isOkE (Capability.from_dict c) = false := by
  cases c with
  | jobj f =>
    simp only [recordKnown, rawId] at hk
    cases hid : lookupKey f "id" with
    | none => rw [hid] at hk; simp at hk
    | some v =>
      rw [hid] at hk
      cases v with
      | jstr s =>
        simp only [idKnown] at hk
        obtain ⟨cid, hcid⟩ := Option.isSome_iff_exists.mp hk
        simp only [hasBadStatusEntry] at hb
        cases hsts : lookupKey f "statuses" with
        | none => rw [hsts] at hb; simp at hb
        | some w =>
          rw [hsts] at hb
          cases w with
          | jlist sts =>
            obtain ⟨x, hx, hbad⟩ := List.any_eq_true.mp hb
            have hxbad : statusOk x = false := by
              cases hst : statusOk x with
              | false => rfl
              | true => rw [hst] at hbad; simp at hbad
            have hfail := decodeStatus_not_ok hxbad
            have hmap := mapME_not_ok hx hfail
            obtain ⟨e, he⟩ := isOkE_false_iff.mp hmap
            simp [Capability.from_dict, hid, hcid, hsts, he, isOkE]
          | jnull => simp at hb
          | jbool b => simp at hb
          | jint n => simp at hb
          | jstr t => simp at hb
          | jobj g => simp at hb
      | jnull => simp [idKnown] at hk
      | jbool b => simp [idKnown] at hk
      | jint n => simp [idKnown] at hk
      | jlist xs => simp [idKnown] at hk
      | jobj g => simp [idKnown] at hk
  | jnull => simp [recordKnown, rawId] at hk
  | jbool b => simp [recordKnown, rawId] at hk
  | jint n => simp [recordKnown, rawId] at hk
  | jstr s => simp [recordKnown, rawId] at hk
  | jlist xs => simp [recordKnown, rawId] at hk

lemma drop_not_ok_of_bad_status {value : List JValue} {c : JValue}
    (hc : c ∈ value) (hk : recordKnown c = true) (hb : hasBadStatusEntry c = true) :
    isOkE (drop_unknown_capabilities value).2 = false := by
  cases hs : subscriptIds value with
  | error e => simp [drop_unknown_capabilities, hs, isOkE]
  | ok tagged =>
    have hfilter := subscriptIds_filter_known hs
    have hmem : c ∈ (tagged.filter (fun p => idKnown p.2)).map Prod.fst := by
      rw [hfilter]
      exact List.mem_filter.mpr ⟨hc, hk⟩
    have := mapME_not_ok hmem (from_dict_bad_status hk hb)
    simpa [drop_unknown_capabilities, hs] using this

lemma decodeInfoPre_not_ok_of_no_vin {f : List (String × JValue)}
    (h : lookupKey f "vin" = none) : isOkE (decodeInfoPre f) = false := by
  rw [decodeInfoPre]
  cases h1 : reqEnum VehicleState.fromString? f "state" with
  | error e => rw [bindE_err]; rfl
  | ok st =>
    rw [bindE_ok]
    cases h2 : reqWith Specification.from_dict f "specification" with
    | error e => rw [bindE_err]; rfl
    | ok spec =>
      rw [bindE_ok]
      have h3 : reqStr f "vin" = .error (.missingField "vin") := by rw [reqStr, h]
      rw [h3, bindE_err]
      rfl

lemma has_capability_iff (i : Info) (cap : CapabilityId) :
    i.has_capability cap = true ↔ ∃ c ∈ i.capabilities.capabilities, c.id = cap := by
  simp [Info.has_capability, List.any_eq_true, beq_iff_eq]

lemma is_capability_available_iff (i : Info) (cap : CapabilityId) :
    i.is_capability_available cap = true ↔
      ∃ c ∈ i.capabilities.capabilities, c.id = cap ∧ c.is_available = true := by
  simp [Info.is_capability_available, List.any_eq_true, beq_iff_eq, Bool.and_eq_true]

lemma is_available_iff (c : Capability) : c.is_available = true ↔ c.statuses = [] := by
  cases c with
  | mk id statuses => cases statuses <;> simp [Capability.is_available, List.isEmpty]

/-- A raw record with the known id `CHARGING` and no statuses. -/
def recCharging : JValue := .jobj [("id", .jstr "CHARGING"), ("statuses", .jlist [])]

/-- A raw record with an id that is not a known `CapabilityId`. -/
def recUnknown : JValue :=
  .jobj [("id", .jstr "TOTALLY_NEW_FEATURE"), ("statuses", .jlist [])]

/-- A raw record with no `id` key at all. -/
def recNoId : JValue := .jobj [("statuses", .jlist [])]

/-- A raw record with a known id but a statuses entry outside
`CapabilityStatus`. -/
def recBadStatus : JValue :=
  .jobj [("id", .jstr "ACCESS"), ("statuses", .jlist [.jstr "NOT_A_STATUS"])]

/-- A complete well-formed wire document for `Info`, in wire (alias) keys. -/
def doc0fields : List (String × JValue) :=
  [("state", .jstr "ACTIVATED"),
   ("specification", .jobj [
     ("body", .jstr "SUV"),
     ("engine", .jobj [("type", .jstr "EV"), ("powerInKW", .jint 150),
       ("capacityInLiters", .jnull)]),
     ("model", .jstr "Enyaq"),
     ("title", .jstr "Skoda Enyaq iV 80"),
     ("manufacturingDate", .jstr "2023-05-01"),
     ("modelYear", .jstr "2023"),
     ("systemCode", .jstr "UNKNOWN"),
     ("systemModelId", .jstr "ABC123"),
     ("battery", .jobj [("capacityInKWh", .jint 82)]),
     ("maxChargingPowerInKW", .jint 135),
     ("trimLevel", .jstr "Sportline")]),
   ("vin", .jstr "TMBJB9NY1RF000000"),
   ("name", .jstr "My Enyaq"),
   ("capabilities", .jobj [("capabilities", .jlist [recCharging])]),
   ("devicePlatform", .jstr "MEB"),
   ("servicePartner", .jobj [("servicePartnerId", .jstr "SP001")]),
   ("workshopModeEnabled", .jbool false),
   ("softwareVersion", .jstr "3.2.0"),
   ("licensePlate", .jstr "AB-123-CD"),
   ("errors", .jnull)]

/-- The document `doc0fields` as a JSON value. -/
def doc0 : JValue := .jobj doc0fields

/-- The `Info` value that `doc0` decodes to. -/
def info0 : Info :=
  { state := .ACTIVATED
    specification :=
      { body := .SUV
        engine := { type := "EV", power := 150, capacity_in_liters := none }
        model := "Enyaq"
        title := "Skoda Enyaq iV 80"
        manufacturing_date := "2023-05-01"
        model_year := "2023"
        system_code := "UNKNOWN"
        system_model_id := "ABC123"
        battery := some { capacity := 82 }
        max_charging_power := some 135
        trim_level := some "Sportline" }
    vin := "TMBJB9NY1RF000000"
    name := "My Enyaq"
    capabilities := ⟨[⟨CapabilityId.CHARGING, []⟩]⟩
    device_platform := "MEB"
    service_partner := ⟨"SP001"⟩
    workshop_mode_enabled := false
    software_version := some "3.2.0"
    license_plate := some "AB-123-CD"
    errors := none }

/-- `info0` with its single capability disabled by a status, so that the
capability is present but not available. -/
def infoEx : Info :=
  { info0 with
    capabilities := ⟨[⟨CapabilityId.CHARGING, [CapabilityStatus.LICENSE_EXPIRED]⟩]⟩ }

/-- `doc0fields` with the required `vin` field removed. -/
def docNoVin : List (String × JValue) :=
  doc0fields.filter (fun p => p.1 != "vin")

/-- An inner capabilities object whose list holds one known-id record with a
malformed statuses entry. -/
def gBad : List (String × JValue) := [("capabilities", .jlist [recBadStatus])]

/-- A top-level document whose capability list holds one known-id record
with a malformed statuses entry. -/
def fBad : List (String × JValue) := [("capabilities", .jobj gBad)]

/-- C1: for every `Capability` value `c`, `is_available` returns true if and
only if `c.statuses` is the empty sequence; the presence of any status,
regardless of which one, makes it return false. -/
theorem capability_is_available_iff_no_statuses (c : Capability) :
    (c.is_available = true ↔ c.statuses = []) ∧
      (∀ st ∈ c.statuses, c.is_available = false) := by
  refine ⟨is_available_iff c, fun st hst => ?_⟩
  cases hav : c.is_available with
  | false => rfl
  | true =>
    rw [(is_available_iff c).mp hav] at hst
    cases hst

/-- C3: `has_capability` is true iff some entry of the capability collection
has that id, independent of that entry's status list. -/
theorem has_capability_iff_id_present (i : Info) (cap : CapabilityId) :
    i.has_capability cap = true ↔ ∃ c ∈ i.capabilities.capabilities, c.id = cap :=
  has_capability_iff i cap

/-- C4: `is_capability_available` is true iff some entry with the id has an
empty status list (an any-match semantics over duplicate ids), it implies
`has_capability`, and the converse implication fails for some vehicle and id. -/
theorem is_capability_available_any_match :
    (∀ (i : Info) (cap : CapabilityId),
      i.is_capability_available cap = true ↔
        ∃ c ∈ i.capabilities.capabilities, c.id = cap ∧ c.statuses = []) ∧
    (∀ (i : Info) (cap : CapabilityId),
      i.is_capability_available cap = true → i.has_capability cap = true) ∧
    (∃ (i : Info) (cap : CapabilityId),
      i.has_capability cap = true ∧ i.is_capability_available cap = false) := by
  refine ⟨fun i cap => ?_, fun i cap h => ?_, ⟨infoEx, .CHARGING, rfl, rfl⟩⟩
  · rw [is_capability_available_iff]
    constructor
    · rintro ⟨c, hc, hid, hav⟩
      exact ⟨c, hc, hid, (is_available_iff c).mp hav⟩
    · rintro ⟨c, hc, hid, hst⟩
      exact ⟨c, hc, hid, (is_available_iff c).mpr hst⟩
  · obtain ⟨c, hc, hid, _⟩ := (is_capability_available_iff i cap).mp h
    exact (has_capability_iff i cap).mpr ⟨c, hc, hid⟩

/-- C8: `get_model_name` is deterministic, and on a specification with model
"Enyaq", engine of type "EV" and 150 kW, model year "2023" and system model
id "ABC123" it produces a string containing "Enyaq", "2023" and "ABC123" in
that relative order. -/
theorem get_model_name_contains_in_order (i : Info)
    (hm : i.specification.model = "Enyaq")
    (he : i.specification.engine = ⟨"EV", 150, none⟩)
    (hy : i.specification.model_year = "2023")
    (hs : i.specification.system_model_id = "ABC123") :
    i.get_model_name = i.get_model_name ∧
      containsInOrder i.get_model_name ["Enyaq", "2023", "ABC123"] = true := by
  refine ⟨rfl, ?_⟩
  rw [Info.get_model_name, hm, hy, hs, he]
  decide

/-- Witness for C8 at the concrete vehicle `info0`. -/
theorem get_model_name_contains_in_order_witness :
    info0.get_model_name = info0.get_model_name ∧
      containsInOrder info0.get_model_name ["Enyaq", "2023", "ABC123"] = true :=
  get_model_name_contains_in_order info0 rfl rfl rfl rfl

/-- C10: a raw record lacking an `id` field makes `drop_unknown_capabilities`
fail with a lookup error raised during the partition step (before the
diagnostic is emitted), instead of the record being dropped as unknown. -/
theorem missing_id_fails_partition (value : List JValue) (c : JValue)
    (hc : c ∈ value) (h : isOkE (rawId c) = false) :
    (drop_unknown_capabilities value).2 = .error (.keyError "id") ∧
      (drop_unknown_capabilities value).1 = [] := by
  have hs := subscriptIds_err hc h
  constructor <;> simp [drop_unknown_capabilities, hs]

/-- Witness for C10 at a concrete record without an `id` key. -/
theorem missing_id_fails_partition_witness :
    (drop_unknown_capabilities [recNoId]).2 = .error (.keyError "id") ∧
      (drop_unknown_capabilities [recNoId]).1 = [] :=
  missing_id_fails_partition [recNoId] recNoId (List.mem_singleton.mpr rfl) rfl

/-- C6: when every raw record carries an id, exactly one diagnostic is
emitted iff the set of unknown-id records is non-empty, and it lists exactly
those raw records, unreformatted and in their original order; with no
unknown id, nothing is emitted. -/
theorem unknown_diagnostic_iff (value : List JValue)
    (h : ∀ c ∈ value, isOkE (rawId c) = true) :
    (drop_unknown_capabilities value).1 =
      if (value.filter recordUnknown).isEmpty then []
      else [value.filter recordUnknown] := by
  obtain ⟨tagged, hs⟩ := subscriptIds_all_ok h
  have hf := subscriptIds_filter_unknown hs
  simp only [drop_unknown_capabilities, hs]
  rw [hf]

/-- Witness for C6 at one known-id and one unknown-id record. -/
theorem unknown_diagnostic_iff_witness :
    (drop_unknown_capabilities [recCharging, recUnknown]).1 =
      if ([recCharging, recUnknown].filter recordUnknown).isEmpty then []
      else [[recCharging, recUnknown].filter recordUnknown] :=
  unknown_diagnostic_iff [recCharging, recUnknown] (by decide)

/-- C2: with every record carrying an id, unknown ids never make the decoder
fail: when the known-id records decode, the output is exactly their decoded
values in original relative order, and an input of only unknown ids yields
an empty collection rather than a failure. -/
theorem drop_unknown_keeps_known_in_order (value : List JValue)
    (h : ∀ c ∈ value, isOkE (rawId c) = true) :
    ((∀ c ∈ value, recordKnown c = true → isOkE (Capability.from_dict c) = true) →
      ∃ caps, (drop_unknown_capabilities value).2 = .ok caps ∧
        mapME Capability.from_dict (value.filter recordKnown) = .ok caps) ∧
    ((∀ c ∈ value, recordUnknown c = true) →
      (drop_unknown_capabilities value).2 = .ok []) := by
  obtain ⟨tagged, hs⟩ := subscriptIds_all_ok h
  have hf := subscriptIds_filter_known hs
  constructor
  · intro hdec
    have hok : ∀ x ∈ value.filter recordKnown, isOkE (Capability.from_dict x) = true := by
      intro x hx
      obtain ⟨hxv, hxk⟩ := List.mem_filter.mp hx
      exact hdec x hxv hxk
    obtain ⟨caps, hcaps⟩ := mapME_ok_of_forall hok
    refine ⟨caps, ?_, hcaps⟩
    simp only [drop_unknown_capabilities, hs]
    rw [hf, hcaps]
  · intro hunk
    have hempty : value.filter recordKnown = [] := by
      rw [List.filter_eq_nil_iff]
      intro a ha
      cases hr : rawId a with
      | error e => simp [recordKnown, hr]
      | ok v =>
        have := hunk a ha
        simp only [recordUnknown, hr, Bool.not_eq_true'] at this
        simp [recordKnown, hr, this]
    simp only [drop_unknown_capabilities, hs]
    rw [hf, hempty]
    rfl

/-- Witness for C2 at one known-id and one unknown-id record. -/
theorem drop_unknown_keeps_known_in_order_witness :
    ∃ caps, (drop_unknown_capabilities [recCharging, recUnknown]).2 = .ok caps ∧
      mapME Capability.from_dict ([recCharging, recUnknown].filter recordKnown) = .ok caps :=
  (drop_unknown_keeps_known_in_order [recCharging, recUnknown] (by decide)).1 (by decide)

/-- C7: a document missing the required `vin` field fails to decode: no
`Info` value is produced and no default is substituted (the result is a
`MalformedField`-kind error). -/
theorem missing_vin_fails_decode (f : List (String × JValue))
    (h : lookupKey f "vin" = none) :
    isOkE (Info.from_dict (.jobj f)).2 = false := by
  have hpre := decodeInfoPre_not_ok_of_no_vin h
  obtain ⟨e, he⟩ := isOkE_false_iff.mp hpre
  simp [Info.from_dict, he, isOkE]

/-- Witness for C7 at the complete document with `vin` removed. -/
theorem missing_vin_fails_decode_witness :
    isOkE (Info.from_dict (.jobj docNoVin)).2 = false :=
  missing_vin_fails_decode docNoVin rfl

/-- C5: a retained (known-id) record with a statuses entry outside
`CapabilityStatus` makes the capability-list decode fail, and the failure
propagates to the decode of the whole snapshot instead of the record being
dropped the way unknown top-level ids are. -/
theorem bad_status_fails_snapshot (value : List JValue) (c : JValue)
    (hc : c ∈ value) (hk : recordKnown c = true) (hb : hasBadStatusEntry c = true) :
    isOkE (drop_unknown_capabilities value).2 = false ∧
      ∀ (f g : List (String × JValue)),
        lookupKey f "capabilities" = some (.jobj g) →
        lookupKey g "capabilities" = some (.jlist value) →
        isOkE (Info.from_dict (.jobj f)).2 = false := by
  have hdrop := drop_not_ok_of_bad_status hc hk hb
  refine ⟨hdrop, fun f g hf hg => ?_⟩
  obtain ⟨e, he⟩ := isOkE_false_iff.mp hdrop
  cases hpre : decodeInfoPre f with
  | error e2 => simp [Info.from_dict, hpre, isOkE]
  | ok q =>
    obtain ⟨st, spec, vin, name⟩ := q
    have hcaps : Capabilities.from_dict (.jobj g) =
        ((drop_unknown_capabilities value).1, .error e) := by
      simp only [Capabilities.from_dict, hg]
      rw [he]
      rfl
    simp [Info.from_dict, hpre, hf, hcaps, isOkE]

/-- Witness for C5 at a concrete record with id `ACCESS` and the unknown
status `NOT_A_STATUS`, inside a concrete snapshot document. -/
theorem bad_status_fails_snapshot_witness :
    isOkE (drop_unknown_capabilities [recBadStatus]).2 = false ∧
      isOkE (Info.from_dict (.jobj fBad)).2 = false := by
  have h := bad_status_fails_snapshot [recBadStatus] recBadStatus
    (List.mem_singleton.mpr rfl) rfl rfl
  exact ⟨h.1, h.2 fBad gBad rfl rfl⟩

/-- C9 counterexample: the well-formed document `doc0` decodes successfully,
but re-decoding the encoding of the decoded value fails instead of
succeeding with an equal value. -/
theorem decode_encode_roundtrip_counterexample :
    Info.from_dict doc0 = ([], .ok info0) ∧
      (Info.from_dict (Info.to_dict info0)).2 = .error (.missingField "powerInKW") :=
  ⟨rfl, rfl⟩

/-- C9 amended: encoding uses the dataclass field names rather than the wire
aliases, so decoding an encoded `Info` always fails (first at the missing
`powerInKW` key); decode-after-encode never succeeds, for any value. -/
theorem decode_encode_roundtrip_fails (v : Info) :
    (Info.from_dict (Info.to_dict v)).2 = .error (.missingField "powerInKW") := by
  obtain ⟨st, spec, vin, name, caps, dp, sp, wm, sv, lp, errs⟩ := v
  obtain ⟨body, engine, model, title, md, my, sc, smi, bat, mcp, tl⟩ := spec
  cases st
  cases body <;> rfl

end Myskoda
